import Mathlib

/-!
Shallow embedding of the collection/retry/dedup core of the BankAI Nexus
research-paper cataloguing tool (services/geminiService.ts,
services/storageService.ts, types.ts), together with theorems settling the
specification claims about it.

JavaScript runtime values are modelled explicitly:
* an exception is a `JsError` carrying a `message` string and optional
  numeric `status` / `code` fields (absent fields are `none`);
* `undefined`-able strings are `Option String`, with JS string falsiness
  (`undefined` or `""`) captured by `jsOr`;
* an async operation that is invoked repeatedly is a trace
  `Nat → Except JsError α` giving the outcome of its k-th invocation;
* elapsed waits (`delay(ms)`) are returned as an explicit list of
  millisecond durations, and network side effects as explicit counters.
-/

/-- A JavaScript error value: `message` (always a string after the code's
`error.message || ''` coercion), and optional `status` / `code` fields. -/
structure JsError where
  message : String
  status : Option Nat
  code : Option Nat
  deriving Repr, DecidableEq

/-- JS `hay.includes(needle)` on strings: substring containment. -/
def strIncludes (hay needle : String) : Bool :=
  decide (needle.toList <:+: hay.toList)

/-- JS `v || d` for an optional string `v`: `undefined` and `""` are falsy. -/
def jsOr (v : Option String) (d : String) : String :=
  match v with
  | none => d
  | some s => if s = "" then d else s

/-- Transience test of `retryOperation` (geminiService.ts line 27):
`msg.includes('429') || error.status === 429 || error.code === 429 || msg.includes('503')`. -/
def isTransient (e : JsError) : Bool :=
  strIncludes e.message "429" || e.status == some 429 || e.code == some 429
    || strIncludes e.message "503"

/-- `retryOperation` (geminiService.ts lines 21-38), over the invocation
trace `op`: try invocation number `attempt`; on failure, if the retry budget
is positive and the error is transient, wait `initialDelay`, then retry with
the budget decremented and the delay doubled; otherwise rethrow.
Returns the final outcome together with the list of waits performed. -/
def retryOperation (op : Nat → Except JsError α) (attempt : Nat)
    (retries : Nat) (initialDelay : Nat) : Except JsError α × List Nat :=
  match op attempt with
  | .ok v => (.ok v, [])
  | .error e =>
    match retries with
    | 0 => (.error e, [])
    | r + 1 =>
      if isTransient e then
        let rest := retryOperation op (attempt + 1) r (initialDelay * 2)
        (rest.1, initialDelay :: rest.2)
      else
        (.error e, [])

example :
    retryOperation (fun k => if k < 2 then .error ⟨"got 429", none, none⟩ else .ok 7)
      0 2 1000 = (.ok 7, [1000, 2000]) := by rfl

example :
    retryOperation (fun _ => .error (α := Nat) ⟨"boom", none, none⟩)
      0 2 1000 = (.error ⟨"boom", none, none⟩, []) := by rfl

/-! ## Data model (types.ts) -/

/-- `Object.values(BankingDomain)` (types.ts lines 2-9). -/
def bankingDomainValues : List String :=
  ["Portfolio Optimization", "Investment Risk Control", "Fraud Detection",
   "AML Compliance & Control", "Customer Servicing (eKYC/CDD)", "General Banking AI"]

/-- `Object.values(AIDomain)` (types.ts lines 11-18). -/
def aiDomainValues : List String :=
  ["LLM SFT", "RLHF", "Agent Designing", "Agentic AI Pipeline", "RAG Systems",
   "Predictive Analytics"]

/-- `Object.values(Methodology)` (types.ts lines 20-26). -/
def methodologyValues : List String :=
  ["Empirical Study", "Theoretical Framework", "Case Study", "Survey/Review",
   "Prototype/Implementation"]

/-- The `Paper` interface (types.ts lines 28-43); the enumeration-typed
fields hold their literal string values, as they do at runtime. -/
structure Paper where
  id : String
  title : String
  abstract : String
  authors : List String
  publicationDate : String
  source : String
  url : String
  citationCount : Int
  bankingDomain : String
  aiDomain : String
  methodology : String
  tags : List String
  isFavorite : Bool
  collectedAt : String
  deriving Repr, DecidableEq

/-- The runtime shape of the `authors` field of a raw LLM record:
an array (elements already coerced by `String(a)`), a string, or any
other value (`undefined`, number, object, ...). -/
inductive RawAuthors where
  | arr (l : List String)
  | str (s : String)
  | other
  deriving Repr, DecidableEq

/-- A loosely-typed candidate record as handed to `sanitizePapers`.
String-able fields are `Option String` (`none` = absent / `undefined`);
`citationCount` is `some n` exactly when `typeof p.citationCount === 'number'`;
`tags` is `some l` exactly when `Array.isArray(p.tags)`. -/
structure RawPaper where
  title : Option String
  abstract : Option String
  authors : RawAuthors
  publicationDate : Option String
  source : Option String
  url : Option String
  citationCount : Option Int
  bankingDomain : Option String
  aiDomain : Option String
  methodology : Option String
  tags : Option (List String)
  deriving Repr, DecidableEq

/-- Ambient context of one `sanitizePapers` invocation: fresh-id generation,
the current date/time strings, URL encoding, and the future-date test
`!isNaN(new Date(d).getTime()) && new Date(d) > now+24h` — all opaque
runtime services, passed explicitly. -/
structure SanitizeEnv where
  idGen : Nat → String
  todayIso : String
  nowIso : String
  encodeURIComponent : String → String
  dateTooFuture : String → Bool

/-- The enumeration-coercion pattern `Object.values(E).includes(v) ? v : DEFAULT`
(geminiService.ts lines 112-122), over the runtime value `v` (`none` =
`undefined`). -/
def coerceEnum (v : Option String) (vals : List String) (d : String) : String :=
  match v with
  | some s => if vals.contains s then s else d
  | none => d

/-- The `safeAuthors` normalization (geminiService.ts lines 102-110). -/
def safeAuthors (a : RawAuthors) : List String :=
  let base : List String :=
    match a with
    | .arr l => (l.map String.trim).filter (fun s => s.length > 0)
    | .str s =>
      if strIncludes s "," then (s.splitOn ",").map String.trim else [s.trim]
    | .other => ["Unknown Author"]
  if base = [] then ["Unknown Author"] else base

/-- The per-record normalization of `sanitizePapers` (geminiService.ts
lines 101-139): defaults, enumeration coercion, URL synthesis. -/
def sanitizeOne (env : SanitizeEnv) (i : Nat) (p : RawPaper) : Paper :=
  { id := env.idGen i
    title := jsOr p.title "Untitled Research"
    abstract := jsOr p.abstract "No abstract available."
    authors := safeAuthors p.authors
    publicationDate := jsOr p.publicationDate env.todayIso
    source := jsOr p.source "Web"
    url :=
      match p.url with
      | some u =>
        if u != "" && u.startsWith "http" then u
        else "https://scholar.google.com/scholar?q=" ++
          env.encodeURIComponent (jsOr p.title "")
      | none => "https://scholar.google.com/scholar?q=" ++
          env.encodeURIComponent (jsOr p.title "")
    citationCount := match p.citationCount with | some n => n | none => 0
    bankingDomain := coerceEnum p.bankingDomain bankingDomainValues "General Banking AI"
    aiDomain := coerceEnum p.aiDomain aiDomainValues "Predictive Analytics"
    methodology := coerceEnum p.methodology methodologyValues "Theoretical Framework"
    tags := match p.tags with | some l => l | none => []
    isFavorite := false
    collectedAt := env.nowIso }

/-- `sanitizePapers` (geminiService.ts lines 97-149): normalize every
record, then drop records with a short or placeholder title or a parseable
publication date more than 24 hours in the future. -/
def sanitizePapers (env : SanitizeEnv) (papers : List RawPaper) : List Paper :=
  (papers.mapIdx (fun i p => sanitizeOne env i p)).filter (fun p =>
    if p.title.length < 5 || p.title == "Untitled Research" then false
    else if env.dateTooFuture p.publicationDate then false
    else true)

/-- A fully-absent raw record, for concrete tests. -/
def emptyRaw : RawPaper :=
  ⟨none, none, .other, none, none, none, none, none, none, none, none⟩

/-- A trivial concrete sanitization context, for concrete tests. -/
def testEnv : SanitizeEnv :=
  ⟨fun i => toString i, "2026-10-11", "2026-10-11T00:00:00.000Z", id, fun _ => false⟩

example : sanitizePapers testEnv [emptyRaw] = [] := by rfl

example :
    (sanitizePapers testEnv
      [{ emptyRaw with title := some "Fraud Detection with LLMs", aiDomain := some "bogus" },
       { emptyRaw with title := some "LLM" },
       { emptyRaw with title := some "Graph RAG for AML", aiDomain := some "RAG Systems" }]).map
      (fun p => (p.title, p.aiDomain)) =
    [("Fraud Detection with LLMs", "Predictive Analytics"),
     ("Graph RAG for AML", "RAG Systems")] := by rfl

/-! ## Local store (services/storageService.ts)

The browser store is modelled by its persisted paper list (plus, for the
batch job, the last-run timestamp and the source list); each storage
operation is a pure function of that state. -/

/-- JS `s.toLowerCase()`: per-character lowering (same ASCII folding as
Lean's `String.toLower`, written over the character list so it evaluates
by kernel reduction). -/
def jsToLower (s : String) : String :=
  ⟨s.data.map Char.toLower⟩

/-- `storageService.savePaper` (storageService.ts lines 40-54): reject as a
duplicate when some stored record has the same case-insensitive title, or
both URLs are non-empty (truthy) and identical; otherwise prepend. -/
def savePaper (papers : List Paper) (paper : Paper) : Bool × List Paper :=
  let isDuplicate := papers.any (fun p =>
    jsToLower p.title == jsToLower paper.title ||
    (p.url != "" && paper.url != "" && p.url == paper.url))
  if isDuplicate then (false, papers) else (true, paper :: papers)

/-- `storageService.toggleFavorite` (storageService.ts lines 56-63). -/
def toggleFavorite (papers : List Paper) (id : String) : List Paper :=
  papers.map (fun p =>
    if p.id == id then { p with isFavorite := !p.isFavorite } else p)

/-! ## Collection pipeline (services/geminiService.ts) -/

/-- The quota test of `collectPapersFromWeb`'s catch block (line 279):
`msg.includes('429') || error.code === 429`. -/
def isQuotaSig (e : JsError) : Bool :=
  strIncludes e.message "429" || e.code == some 429

/-- The dedicated error thrown on a quota signature (line 286). -/
def quotaExceededError : JsError :=
  ⟨"Quota Exceeded (429): The research agent has hit the daily/minute limit. Please try again later.",
   none, none⟩

/-- `collectPapersFromKnowledgeBase` (lines 155-216): retry-wrapped model
call with budget 1 and 5000 ms backoff; parse the response; on any error
caught in its try block, rethrow when the message contains "429",
otherwise return the empty list. `kbOp` is the invocation trace of the
model call (yielding `response.text`, `""` for a falsy text); `kbParse`
models `JSON.parse` on the trimmed text, its `.error` being the exception
the parse (or a non-array result) raises. -/
def collectPapersFromKnowledgeBase (env : SanitizeEnv) (aiPresent : Bool)
    (kbOp : Nat → Except JsError String)
    (kbParse : String → Except JsError (List RawPaper)) :
    Except JsError (List Paper) :=
  if !aiPresent then .ok []
  else
    match (retryOperation kbOp 0 1 5000).1 with
    | .ok text =>
      if text == "" then .ok []
      else
        match kbParse text.trim with
        | .ok raw => .ok (sanitizePapers env raw)
        | .error e => if strIncludes e.message "429" then .error e else .ok []
    | .error e => if strIncludes e.message "429" then .error e else .ok []

/-- Outcome of the JSON-in-markdown extraction of `collectPapersFromWeb`
(lines 261-271): a parsed array, parsed JSON that is not an array, or a
`JSON.parse` exception. -/
inductive ExtractResult where
  | arr (raw : List RawPaper)
  | notArr
  | fail
  deriving Repr

/-- `collectPapersFromWeb` (lines 221-300). `searchOp` is the invocation
trace of the retry-wrapped search call (budget 2, 20000 ms backoff),
yielding `response.text`; `extract` models the fenced-code-block match plus
`JSON.parse`. The second component counts knowledge-base fallback calls.
On a caught error with a quota signature the dedicated quota error is
thrown; otherwise one knowledge-base fallback is tried, its failure
rethrowing the original error. -/
def collectPapersFromWeb (env : SanitizeEnv) (aiPresent : Bool)
    (searchOp : Nat → Except JsError String) (extract : String → ExtractResult)
    (kbOp : Nat → Except JsError String)
    (kbParse : String → Except JsError (List RawPaper)) :
    Except JsError (List Paper) × Nat :=
  if !aiPresent then (.error ⟨"API Key not configured.", none, none⟩, 0)
  else
    let kb := collectPapersFromKnowledgeBase env aiPresent kbOp kbParse
    let tryBody : Except JsError (List Paper) × Nat :=
      match (retryOperation searchOp 0 2 20000).1 with
      | .error e => (.error e, 0)
      | .ok text =>
        if text == "" then (.error ⟨"Empty response from AI model", none, none⟩, 0)
        else
          match extract text with
          | .arr raw => (.ok (sanitizePapers env raw), 0)
          | .notArr => (.ok [], 0)
          | .fail => (kb, 1)
    match tryBody.1 with
    | .ok papers => (.ok papers, tryBody.2)
    | .error e =>
      if isQuotaSig e then (.error quotaExceededError, tryBody.2)
      else
        match kb with
        | .ok papers => (.ok papers, tryBody.2 + 1)
        | .error _ => (.error e, tryBody.2 + 1)

/-! ## Daily batch job (geminiService.ts lines 310-368) -/

def ONE_DAY_MS : Int := 24 * 60 * 60 * 1000

/-- The store state the batch job touches. -/
structure Store where
  papers : List Paper
  lastBatchRun : Int
  sources : List String
  deriving Repr

/-- `runDailyBatchJob` (lines 310-368). `chosenDomain` is the single
banking domain kept by the random shuffle-and-slice; `collect` is the
pipeline call `collectPapersFromWeb(query, sources, afterDate)`; `dateOf`
models `new Date(ts).toISOString().split('T')[0]` and `monthAgoIso` the
one-month-back date. Returns (new-paper count, updated store, number of
pipeline invocations). -/
def runDailyBatchJob (now : Int) (store : Store) (chosenDomain : String)
    (collect : String → List String → String → Except JsError (List Paper))
    (dateOf : Int → String) (monthAgoIso : String) : Nat × Store × Nat :=
  if now - store.lastBatchRun < ONE_DAY_MS && store.lastBatchRun != 0 then
    (0, store, 0)
  else
    let afterDate := if store.lastBatchRun > 0 then dateOf store.lastBatchRun else monthAgoIso
    let query := "Latest technical research in " ++ chosenDomain ++
      " using Generative AI and LLMs"
    match collect query store.sources afterDate with
    | .ok fullPapers =>
      let folded := fullPapers.foldl (fun acc p =>
        let r := savePaper acc.2 p
        (if r.1 then acc.1 + 1 else acc.1, r.2)) ((0 : Nat), store.papers)
      (folded.1, { store with papers := folded.2, lastBatchRun := now }, 1)
    | .error _ =>
      (0, { store with lastBatchRun := now }, 1)

/-! ## Query optimization (geminiService.ts lines 41-92) -/

inductive Provider where
  | gemini
  | groq
  deriving Repr, DecidableEq

/-- `LLMSettings` (types.ts lines 67-71). -/
structure LLMSettings where
  provider : Provider
  groqApiKey : Option String
  groqModel : Option String
  deriving Repr, DecidableEq

/-- Outcome of the one `fetch` to the Groq endpoint: HTTP success with the
extracted `content` field (`none` if absent), an HTTP error response with
`err.error?.message` and `response.statusText`, or a thrown exception. -/
inductive FetchOutcome where
  | ok (content : Option String)
  | httpErr (errMsg : Option String) (statusText : String)
  | threw (msg : String)
  deriving Repr, DecidableEq

/-- `callGroqAPI` (lines 41-68): missing key short-circuits; an HTTP error
is thrown as `Groq API Error: ...` and, like any thrown error, is caught
and returned as a `Provider Error: ...` string. Never throws. -/
def callGroqAPI (settings : LLMSettings) (outcome : FetchOutcome) : String :=
  if jsOr settings.groqApiKey "" == "" then
    "Error: Groq API Key is missing in Settings."
  else
    match outcome with
    | .ok content => jsOr content ""
    | .httpErr errMsg statusText =>
      "Provider Error: " ++ ("Groq API Error: " ++ jsOr errMsg statusText)
    | .threw m => "Provider Error: " ++ m

/-- `optimizeSearchQuery` (lines 70-92): Groq path delegates to
`callGroqAPI`; Gemini path returns the topic when the client is missing,
the single (never retried) call fails, or its text is falsy after trim.
`geminiOutcome` is the outcome of `ai.models.generateContent`, whose `.ok`
carries `response.text` (`none` if absent). -/
def optimizeSearchQuery (settings : LLMSettings) (groqOutcome : FetchOutcome)
    (aiPresent : Bool) (geminiOutcome : Except JsError (Option String))
    (topic : String) (_dateRange : String) : String :=
  if settings.provider == .groq then callGroqAPI settings groqOutcome
  else if !aiPresent then topic
  else
    match geminiOutcome with
    | .ok t =>
      match t with
      | some s => if s.trim == "" then topic else s.trim
      | none => topic
    | .error _ => topic

/-! ## Helper lemmas -/

/-- A 429 quota signature in the sense of claim C2: message substring,
status, or code. -/
def has429 (e : JsError) : Prop :=
  strIncludes e.message "429" = true ∨ e.status = some 429 ∨ e.code = some 429

theorem isTransient_of_has429 {e : JsError} (h : has429 e) : isTransient e = true := by
  rcases h with h | h | h <;> simp [isTransient, h]

theorem retryOperation_ok {op : Nat → Except JsError α} {attempt : Nat} {v : α}
    (h : op attempt = .ok v) (r d : Nat) :
    retryOperation op attempt r d = (.ok v, []) := by
  rw [retryOperation.eq_def, h]

theorem retryOperation_step {op : Nat → Except JsError α} {attempt : Nat} {e : JsError}
    (h : op attempt = .error e) (ht : isTransient e = true) (r d : Nat) :
    retryOperation op attempt (r + 1) d =
      ((retryOperation op (attempt + 1) r (d * 2)).1,
        d :: (retryOperation op (attempt + 1) r (d * 2)).2) := by
  rw [retryOperation.eq_def, h]
  simp [ht]

theorem retryOperation_nontransient {op : Nat → Except JsError α} {attempt : Nat}
    {e : JsError} (h : op attempt = .error e) (ht : isTransient e = false) (r d : Nat) :
    retryOperation op attempt r d = (.error e, []) := by
  rw [retryOperation.eq_def, h]
  cases r <;> simp [ht]

/-- C2: an operation that fails twice with a 429 signature and then
succeeds, run through `retryOperation` with budget 2 and initial backoff
`d`, returns the success value after exactly three attempts (two waits),
waiting `d` before the first retry and `2 × d` before the second, for a
total elapsed wait of `d + 2 × d`. -/
theorem retryOperation_two_429_failures_then_success
    {α : Type} (op : Nat → Except JsError α) (e0 e1 : JsError) (v : α) (d : Nat)
    (h0 : op 0 = .error e0) (h1 : op 1 = .error e1) (h2 : op 2 = .ok v)
    (t0 : has429 e0) (t1 : has429 e1) :
    retryOperation op 0 2 d = (.ok v, [d, 2 * d]) ∧
    (retryOperation op 0 2 d).2.length + 1 = 3 ∧
    (retryOperation op 0 2 d).2.sum = d + 2 * d := by
  have s2 : retryOperation op 2 0 (d * 2 * 2) = (.ok v, []) := retryOperation_ok h2 0 _
  have s1 : retryOperation op 1 (0 + 1) (d * 2) =
      ((retryOperation op 2 0 (d * 2 * 2)).1, (d * 2) :: (retryOperation op 2 0 (d * 2 * 2)).2) :=
    retryOperation_step h1 (isTransient_of_has429 t1) 0 (d * 2)
  have s0 : retryOperation op 0 (1 + 1) d =
      ((retryOperation op 1 1 (d * 2)).1, d :: (retryOperation op 1 1 (d * 2)).2) :=
    retryOperation_step h0 (isTransient_of_has429 t0) 1 d
  have key : retryOperation op 0 2 d = (.ok v, [d, 2 * d]) := by
    have : retryOperation op 0 2 d = retryOperation op 0 (1 + 1) d := by norm_num
    rw [this, s0]
    have : retryOperation op 1 1 (d * 2) = retryOperation op 1 (0 + 1) (d * 2) := by norm_num
    rw [this, s1, s2]
    simp [Nat.mul_comm]
  refine ⟨key, ?_, ?_⟩ <;> rw [key] <;> simp

/-- C2 witness: a concrete trace failing twice with "got 429" then
succeeding with 7, at budget 2 and backoff 1000 ms. -/
theorem retryOperation_two_429_failures_then_success_witness :
    retryOperation (fun k => if k < 2 then .error ⟨"got 429", none, none⟩ else .ok (7 : Nat))
      0 2 1000 = (.ok 7, [1000, 2 * 1000]) ∧
    (retryOperation (fun k => if k < 2 then .error ⟨"got 429", none, none⟩ else .ok (7 : Nat))
      0 2 1000).2.length + 1 = 3 ∧
    (retryOperation (fun k => if k < 2 then .error ⟨"got 429", none, none⟩ else .ok (7 : Nat))
      0 2 1000).2.sum = 1000 + 2 * 1000 :=
  retryOperation_two_429_failures_then_success _ _ _ 7 1000 rfl rfl rfl
    (Or.inl (by decide)) (Or.inl (by decide))

/-- C3 counterexample: an error whose status code is 503 but whose message
does not contain "503" is NOT classified transient; `retryOperation`
propagates it unchanged, with no retry and no wait, despite a full budget. -/
theorem isTransient_status503_only_not_retried :
    isTransient ⟨"Service Unavailable", some 503, none⟩ = false ∧
    retryOperation (fun _ => .error (α := Nat) ⟨"Service Unavailable", some 503, none⟩)
      0 2 20000 = (.error ⟨"Service Unavailable", some 503, none⟩, []) :=
  ⟨rfl, rfl⟩

/-- C3 (amended): an error is transient iff it has a 429 signature (message
substring, status code, or code field) or its message contains "503" — a
503 status code alone is not matched; and every non-transient error is
propagated unchanged, without retrying and without waiting. -/
theorem retryOperation_transient_iff (α : Type) (e : JsError) :
    (isTransient e = true ↔
      (strIncludes e.message "429" = true ∨ e.status = some 429 ∨ e.code = some 429 ∨
        strIncludes e.message "503" = true)) ∧
    (∀ (op : Nat → Except JsError α) (r d : Nat), op 0 = .error e → isTransient e = false →
      retryOperation op 0 r d = (.error e, [])) := by
  constructor
  · simp [isTransient, Bool.or_eq_true, beq_iff_eq, or_assoc]
  · intro op r d h hn
    exact retryOperation_nontransient h hn r d

/-- C3 witness: the amended theorem applied to a concrete non-transient
error and a concrete trace. -/
theorem retryOperation_transient_iff_witness :
    retryOperation (fun _ => .error (α := Nat) ⟨"bad gateway", none, none⟩) 0 2 1000 =
      (.error ⟨"bad gateway", none, none⟩, []) :=
  (retryOperation_transient_iff Nat ⟨"bad gateway", none, none⟩).2 _ 2 1000 rfl (by decide)

/-- C1: if the retry-wrapped primary search call fails with a quota
signature (message containing "429" or code 429), `collectPapersFromWeb`
throws the dedicated Quota-Exceeded error and the knowledge-base fallback
is never attempted (fallback-call count 0). -/
theorem collectPapersFromWeb_quota_aborts (env : SanitizeEnv)
    (searchOp kbOp : Nat → Except JsError String) (extract : String → ExtractResult)
    (kbParse : String → Except JsError (List RawPaper)) (e : JsError)
    (hfail : (retryOperation searchOp 0 2 20000).1 = .error e)
    (hq : isQuotaSig e = true) :
    collectPapersFromWeb env true searchOp extract kbOp kbParse =
      (.error quotaExceededError, 0) := by
  simp [collectPapersFromWeb, hfail, hq]

/-- C1 witness: a search trace that always fails with a "429" message,
exhausting the retry budget; the pipeline returns the quota error with zero
knowledge-base calls. -/
theorem collectPapersFromWeb_quota_aborts_witness :
    collectPapersFromWeb testEnv true (fun _ => .error ⟨"429 quota", none, none⟩)
      (fun _ => .notArr) (fun _ => .ok "") (fun _ => .error ⟨"parse fail", none, none⟩) =
      (.error quotaExceededError, 0) :=
  collectPapersFromWeb_quota_aborts testEnv _ _ _ _ ⟨"429 quota", none, none⟩ rfl rfl

/-- The duplicate test of `savePaper`, characterized as a proposition. -/
theorem savePaper_dup_iff (papers : List Paper) (p : Paper) :
    (papers.any (fun q => jsToLower q.title == jsToLower p.title ||
      (q.url != "" && p.url != "" && q.url == p.url)) = true) ↔
    ∃ q ∈ papers, jsToLower q.title = jsToLower p.title ∨
      (q.url ≠ "" ∧ p.url ≠ "" ∧ q.url = p.url) := by
  simp [List.any_eq_true, and_assoc]

/-- C4: a save is rejected as a duplicate (returning `false`, store
unchanged) exactly when a stored record shares the case-insensitive title
or an identical non-empty URL; otherwise it returns `true`, prepends the
record, and the store then holds exactly one record with that
case-insensitive title — so saving the same title twice yields one stored
record, the second call reporting a duplicate. -/
theorem savePaper_dedup (papers : List Paper) (p : Paper) :
    ((∃ q ∈ papers, jsToLower q.title = jsToLower p.title ∨
        (q.url ≠ "" ∧ p.url ≠ "" ∧ q.url = p.url)) →
      savePaper papers p = (false, papers)) ∧
    ((∀ q ∈ papers, ¬(jsToLower q.title = jsToLower p.title ∨
        (q.url ≠ "" ∧ p.url ≠ "" ∧ q.url = p.url))) →
      savePaper papers p = (true, p :: papers) ∧
      ((p :: papers).filter (fun q => jsToLower q.title == jsToLower p.title)).length = 1) ∧
    (∀ p2 : Paper, jsToLower p2.title = jsToLower p.title →
      savePaper (p :: papers) p2 = (false, p :: papers)) := by
  refine ⟨?_, ?_, ?_⟩
  · intro h
    have hd := (savePaper_dup_iff papers p).mpr h
    simp [savePaper, hd]
  · intro h
    have hd : papers.any (fun q => jsToLower q.title == jsToLower p.title ||
        (q.url != "" && p.url != "" && q.url == p.url)) = false := by
      by_contra hc
      rw [Bool.not_eq_false] at hc
      obtain ⟨q, hq, hcond⟩ := (savePaper_dup_iff papers p).mp hc
      exact h q hq hcond
    refine ⟨by simp [savePaper, hd], ?_⟩
    have hnil : papers.filter (fun q => jsToLower q.title == jsToLower p.title) = [] := by
      rw [List.filter_eq_nil_iff]
      intro q hq
      simp only [beq_iff_eq]
      intro hEq
      exact h q hq (Or.inl hEq)
    rw [List.filter_cons_of_pos (by simp), hnil]
    rfl
  · intro p2 h2
    have hd : (p :: papers).any (fun q => jsToLower q.title == jsToLower p2.title ||
        (q.url != "" && p2.url != "" && q.url == p2.url)) = true := by
      rw [List.any_cons]
      simp [h2.symm]
    simp [savePaper, hd]

/-- A concrete well-formed stored paper, for witnesses. -/
def testPaper : Paper :=
  ⟨"id1", "Deep Hedging", "An abstract.", ["A. Author"], "2025-01-01", "ArXiv",
   "http://arxiv.org/abs/1", 3, "General Banking AI", "RAG Systems", "Case Study",
   [], false, "2026-10-11T00:00:00.000Z"⟩

/-- A second paper with the same title in different case and a different URL. -/
def testPaper2 : Paper :=
  ⟨"id2", "DEEP hedging", "Another abstract.", ["B. Author"], "2025-02-01", "SSRN",
   "http://ssrn.com/2", 0, "Fraud Detection", "RLHF", "Survey/Review",
   [], false, "2026-10-11T01:00:00.000Z"⟩

/-- C4 witness: saving into an empty store succeeds and stores one record
with that title; re-saving the same title in different case is rejected and
leaves the store unchanged. -/
theorem savePaper_dedup_witness :
    savePaper [] testPaper = (true, [testPaper]) ∧
    (([testPaper] : List Paper).filter
      (fun q => jsToLower q.title == jsToLower testPaper.title)).length = 1 ∧
    savePaper [testPaper] testPaper2 = (false, [testPaper]) := by
  refine ⟨?_, ?_, ?_⟩
  · exact ((savePaper_dedup [] testPaper).2.1 (by simp)).1
  · exact ((savePaper_dedup [] testPaper).2.1 (by simp)).2
  · exact (savePaper_dedup [] testPaper).2.2 testPaper2 (by decide)

/-- The per-record step of `toggleFavorite`: toggling twice restores the
record. -/
theorem toggleFavorite_step_involutive (id : String) (p : Paper) :
    (fun q : Paper => if q.id == id then { q with isFavorite := !q.isFavorite } else q)
      ((fun q : Paper => if q.id == id then { q with isFavorite := !q.isFavorite } else q) p)
      = p := by
  obtain ⟨pid, t, ab, au, pd, so, u, cc, bd, ad, me, tg, fav, ca⟩ := p
  by_cases h : pid = id
  · subst h
    simp
  · simp [h]

/-- C10: `toggleFavorite` preserves length and order; a record whose id
matches has exactly its favorite flag negated (all other fields unchanged),
any other record is untouched, and applying the operation twice restores
the original list. -/
theorem toggleFavorite_spec (papers : List Paper) (id : String) :
    (toggleFavorite papers id).length = papers.length ∧
    (∀ (i : Nat) (h : i < papers.length) (h2 : i < (toggleFavorite papers id).length),
      ((papers.get ⟨i, h⟩).id ≠ id →
        (toggleFavorite papers id).get ⟨i, h2⟩ = papers.get ⟨i, h⟩) ∧
      ((papers.get ⟨i, h⟩).id = id →
        (toggleFavorite papers id).get ⟨i, h2⟩ =
          { papers.get ⟨i, h⟩ with
              isFavorite := !(papers.get ⟨i, h⟩).isFavorite })) ∧
    toggleFavorite (toggleFavorite papers id) id = papers := by
  refine ⟨by simp [toggleFavorite], ?_, ?_⟩
  · intro i h h2
    constructor
    · intro hne
      simp only [List.get_eq_getElem] at hne ⊢
      simp [toggleFavorite, List.getElem_map, hne]
    · intro heq
      simp only [List.get_eq_getElem] at heq ⊢
      simp [toggleFavorite, List.getElem_map, heq]
  · rw [toggleFavorite, toggleFavorite, List.map_map]
    have : papers.map ((fun q : Paper =>
        if q.id == id then { q with isFavorite := !q.isFavorite } else q) ∘
        (fun q : Paper =>
        if q.id == id then { q with isFavorite := !q.isFavorite } else q)) =
        papers.map (fun q => q) := by
      apply List.map_congr_left
      intro a _
      exact toggleFavorite_step_involutive id a
    rw [this, List.map_id']

/-- C10 witness: toggling a one-element list at its id flips the flag and
toggling twice restores the list. -/
theorem toggleFavorite_spec_witness :
    toggleFavorite (toggleFavorite [testPaper] "id1") "id1" = [testPaper] ∧
    (toggleFavorite [testPaper] "id1").get ⟨0, by decide⟩ =
      { testPaper with isFavorite := !testPaper.isFavorite } := by
  refine ⟨(toggleFavorite_spec [testPaper] "id1").2.2, ?_⟩
  exact ((toggleFavorite_spec [testPaper] "id1").2.1 0 (by decide) (by decide)).2 rfl

/-- C9: with a non-zero last-run timestamp less than 24 hours old, the
daily batch job returns a zero count immediately: the store is unchanged
and the collection pipeline is never invoked. -/
theorem runDailyBatchJob_gate (now : Int) (store : Store) (dom : String)
    (collect : String → List String → String → Except JsError (List Paper))
    (dateOf : Int → String) (monthAgoIso : String)
    (h0 : store.lastBatchRun ≠ 0) (h1 : now - store.lastBatchRun < ONE_DAY_MS)
    (_h2 : store.lastBatchRun ≤ now) :
    runDailyBatchJob now store dom collect dateOf monthAgoIso = (0, store, 0) := by
  simp [runDailyBatchJob, h0, h1]

/-- C9 witness: a store last refreshed 500 ms before `now`. -/
theorem runDailyBatchJob_gate_witness :
    runDailyBatchJob 1000 ⟨[], 500, []⟩ "Fraud Detection"
      (fun _ _ _ => .ok []) (fun _ => "1970-01-01") "2026-09-11" =
      (0, ⟨[], 500, []⟩, 0) :=
  runDailyBatchJob_gate 1000 ⟨[], 500, []⟩ "Fraud Detection"
    (fun _ _ _ => .ok []) (fun _ => "1970-01-01") "2026-09-11"
    (by decide) (by decide) (by decide)

theorem coerceEnum_default (v : Option String) (vals : List String) (d : String)
    (h : ∀ s, v = some s → s ∉ vals) : coerceEnum v vals d = d := by
  cases v with
  | none => rfl
  | some s =>
    have hs := h s rfl
    simp [coerceEnum, hs]

theorem coerceEnum_member (s : String) (vals : List String) (d : String)
    (h : s ∈ vals) : coerceEnum (some s) vals d = s := by
  simp [coerceEnum, h]

/-- C5: the sanitized output contains no record whose title is shorter than
5 characters or equal to the placeholder "Untitled Research"; consequently
a raw record whose missing (falsy) title was first defaulted to the
placeholder is absent from the sanitized output. -/
theorem sanitizePapers_drops_bad_titles (env : SanitizeEnv) (raw : List RawPaper) :
    (∀ q ∈ sanitizePapers env raw, 5 ≤ q.title.length ∧ q.title ≠ "Untitled Research") ∧
    (∀ (i : Nat) (p : RawPaper), (p.title = none ∨ p.title = some "") →
      sanitizeOne env i p ∉ sanitizePapers env raw) := by
  have main : ∀ q ∈ sanitizePapers env raw,
      5 ≤ q.title.length ∧ q.title ≠ "Untitled Research" := by
    intro q hq
    rw [sanitizePapers, List.mem_filter] at hq
    obtain ⟨-, hcond⟩ := hq
    by_cases h1 : q.title.length < 5
    · simp [h1] at hcond
    · by_cases h2 : q.title = "Untitled Research"
      · simp [h1, h2] at hcond
      · exact ⟨Nat.le_of_not_lt h1, h2⟩
  refine ⟨main, ?_⟩
  intro i p hp hmem
  have htitle : (sanitizeOne env i p).title = "Untitled Research" := by
    rcases hp with h | h <;> simp [sanitizeOne, jsOr, h]
  exact (main _ hmem).2 htitle

/-- A raw record with a valid long title and an unrecognized AI domain. -/
def goodRaw : RawPaper :=
  { emptyRaw with title := some "Fraud Detection with LLMs", aiDomain := some "bogus" }

/-- C5 witness: a titled record passes the filter with its title intact,
and a record with a missing title is absent from the output. -/
theorem sanitizePapers_drops_bad_titles_witness :
    (5 ≤ (sanitizeOne testEnv 0 goodRaw).title.length ∧
      (sanitizeOne testEnv 0 goodRaw).title ≠ "Untitled Research") ∧
    sanitizeOne testEnv 0 emptyRaw ∉ sanitizePapers testEnv [emptyRaw] := by
  constructor
  · apply (sanitizePapers_drops_bad_titles testEnv [goodRaw]).1
    rw [show sanitizePapers testEnv [goodRaw] = [sanitizeOne testEnv 0 goodRaw] from rfl]
    exact List.mem_singleton_self _
  · exact (sanitizePapers_drops_bad_titles testEnv [emptyRaw]).2 0 emptyRaw (Or.inl rfl)

/-- C6: for every raw record paired with its sanitized image in the output,
an enumeration value that is not an exact member of its fixed list is
replaced by that enumeration's designated default ("General Banking AI",
"Predictive Analytics", "Theoretical Framework"), and an exact member
passes through unchanged. -/
theorem sanitizePapers_enum_defaults (env : SanitizeEnv) (raw : List RawPaper)
    (i : Nat) (r : RawPaper) (_hr : raw.get? i = some r)
    (_hs : sanitizeOne env i r ∈ sanitizePapers env raw) :
    ((∀ s, r.bankingDomain = some s → s ∉ bankingDomainValues) →
      (sanitizeOne env i r).bankingDomain = "General Banking AI") ∧
    (∀ s, r.bankingDomain = some s → s ∈ bankingDomainValues →
      (sanitizeOne env i r).bankingDomain = s) ∧
    ((∀ s, r.aiDomain = some s → s ∉ aiDomainValues) →
      (sanitizeOne env i r).aiDomain = "Predictive Analytics") ∧
    (∀ s, r.aiDomain = some s → s ∈ aiDomainValues →
      (sanitizeOne env i r).aiDomain = s) ∧
    ((∀ s, r.methodology = some s → s ∉ methodologyValues) →
      (sanitizeOne env i r).methodology = "Theoretical Framework") ∧
    (∀ s, r.methodology = some s → s ∈ methodologyValues →
      (sanitizeOne env i r).methodology = s) := by
  refine ⟨?_, ?_, ?_, ?_, ?_, ?_⟩
  · intro h
    exact coerceEnum_default _ _ _ h
  · intro s hsome hmem
    show coerceEnum r.bankingDomain _ _ = s
    rw [hsome]
    exact coerceEnum_member s _ _ hmem
  · intro h
    exact coerceEnum_default _ _ _ h
  · intro s hsome hmem
    show coerceEnum r.aiDomain _ _ = s
    rw [hsome]
    exact coerceEnum_member s _ _ hmem
  · intro h
    exact coerceEnum_default _ _ _ h
  · intro s hsome hmem
    show coerceEnum r.methodology _ _ = s
    rw [hsome]
    exact coerceEnum_member s _ _ hmem

/-- C6 witness: a record with an unrecognized AI domain, a valid banking
domain member, and a missing methodology, surviving the filter. -/
theorem sanitizePapers_enum_defaults_witness :
    (sanitizeOne testEnv 0
      { goodRaw with bankingDomain := some "Fraud Detection" }).aiDomain =
        "Predictive Analytics" ∧
    (sanitizeOne testEnv 0
      { goodRaw with bankingDomain := some "Fraud Detection" }).bankingDomain =
        "Fraud Detection" ∧
    (sanitizeOne testEnv 0
      { goodRaw with bankingDomain := some "Fraud Detection" }).methodology =
        "Theoretical Framework" := by
  have hmem : sanitizeOne testEnv 0 { goodRaw with bankingDomain := some "Fraud Detection" } ∈
      sanitizePapers testEnv [{ goodRaw with bankingDomain := some "Fraud Detection" }] := by
    rw [show sanitizePapers testEnv [{ goodRaw with bankingDomain := some "Fraud Detection" }] =
      [sanitizeOne testEnv 0 { goodRaw with bankingDomain := some "Fraud Detection" }] from rfl]
    exact List.mem_singleton_self _
  have h := sanitizePapers_enum_defaults testEnv
    [{ goodRaw with bankingDomain := some "Fraud Detection" }] 0
    { goodRaw with bankingDomain := some "Fraud Detection" } rfl hmem
  refine ⟨?_, ?_, ?_⟩
  · exact h.2.2.1 (by intro s hs; cases hs; decide)
  · exact h.2.1 "Fraud Detection" rfl (by decide)
  · exact h.2.2.2.2.1 (by intro s hs; cases hs)

/-- Every error the knowledge-base fallback throws carries a "429" message
(its catch block rethrows exactly those). -/
theorem collectPapersFromKnowledgeBase_error_has429 (env : SanitizeEnv) (ai : Bool)
    (kbOp : Nat → Except JsError String)
    (kbParse : String → Except JsError (List RawPaper)) (e : JsError)
    (h : collectPapersFromKnowledgeBase env ai kbOp kbParse = .error e) :
    strIncludes e.message "429" = true := by
  unfold collectPapersFromKnowledgeBase at h
  repeat' split at h
  all_goals simp_all

/-- C7 counterexample: the primary search fails with a non-quota error
"network boom"; the knowledge-base fallback then throws a quota error
("429 rate limited"), yet the pipeline propagates the ORIGINAL error, not
the quota error. -/
theorem collectPapersFromWeb_kb_quota_swallowed :
    collectPapersFromWeb testEnv true
      (fun _ => .error ⟨"network boom", none, none⟩)
      (fun _ => .notArr)
      (fun _ => .error ⟨"429 rate limited", none, none⟩)
      (fun _ => .error ⟨"parse broke", none, none⟩) =
      (.error ⟨"network boom", none, none⟩, 1) ∧
    collectPapersFromKnowledgeBase testEnv true
      (fun _ => .error ⟨"429 rate limited", none, none⟩)
      (fun _ => .error ⟨"parse broke", none, none⟩) =
      .error ⟨"429 rate limited", none, none⟩ :=
  ⟨rfl, rfl⟩

/-- C7 (amended): after a non-quota primary failure or an extraction
failure, exactly one knowledge-base fallback call is made (budget 1,
5000 ms backoff per `collectPapersFromKnowledgeBase`); a fallback success
yields its sanitized results (possibly empty). A fallback error always
carries a "429" message; after an extraction failure it surfaces as the
dedicated Quota-Exceeded error, but after a non-quota search failure the
pipeline throws the ORIGINAL search error instead. -/
theorem collectPapersFromWeb_fallback_behavior (env : SanitizeEnv)
    (searchOp kbOp : Nat → Except JsError String) (extract : String → ExtractResult)
    (kbParse : String → Except JsError (List RawPaper)) :
    (∀ e, (retryOperation searchOp 0 2 20000).1 = .error e → isQuotaSig e = false →
      (collectPapersFromWeb env true searchOp extract kbOp kbParse).2 = 1 ∧
      (∀ l, collectPapersFromKnowledgeBase env true kbOp kbParse = .ok l →
        (collectPapersFromWeb env true searchOp extract kbOp kbParse).1 = .ok l) ∧
      (∀ e2, collectPapersFromKnowledgeBase env true kbOp kbParse = .error e2 →
        (collectPapersFromWeb env true searchOp extract kbOp kbParse).1 = .error e)) ∧
    (∀ text, (retryOperation searchOp 0 2 20000).1 = .ok text → text ≠ "" →
      extract text = .fail →
      (collectPapersFromWeb env true searchOp extract kbOp kbParse).2 = 1 ∧
      (∀ l, collectPapersFromKnowledgeBase env true kbOp kbParse = .ok l →
        (collectPapersFromWeb env true searchOp extract kbOp kbParse).1 = .ok l) ∧
      (∀ e2, collectPapersFromKnowledgeBase env true kbOp kbParse = .error e2 →
        (collectPapersFromWeb env true searchOp extract kbOp kbParse).1 =
          .error quotaExceededError)) ∧
    (∀ e2, collectPapersFromKnowledgeBase env true kbOp kbParse = .error e2 →
      strIncludes e2.message "429" = true) := by
  refine ⟨?_, ?_, ?_⟩
  · intro e hfail hnq
    refine ⟨?_, ?_, ?_⟩
    · cases hkb : collectPapersFromKnowledgeBase env true kbOp kbParse with
      | ok l => simp [collectPapersFromWeb, hfail, hnq, hkb]
      | error e2 => simp [collectPapersFromWeb, hfail, hnq, hkb]
    · intro l hkb
      simp [collectPapersFromWeb, hfail, hnq, hkb]
    · intro e2 hkb
      simp [collectPapersFromWeb, hfail, hnq, hkb]
  · intro text hok hne hex
    refine ⟨?_, ?_, ?_⟩
    · cases hkb : collectPapersFromKnowledgeBase env true kbOp kbParse with
      | ok l => simp [collectPapersFromWeb, hok, hne, hex, hkb]
      | error e2 =>
        have hq : isQuotaSig e2 = true := by
          unfold isQuotaSig
          rw [collectPapersFromKnowledgeBase_error_has429 env true kbOp kbParse e2 hkb]
          rfl
        simp [collectPapersFromWeb, hok, hne, hex, hkb, hq]
    · intro l hkb
      simp [collectPapersFromWeb, hok, hne, hex, hkb]
    · intro e2 hkb
      have hq : isQuotaSig e2 = true := by
        unfold isQuotaSig
        rw [collectPapersFromKnowledgeBase_error_has429 env true kbOp kbParse e2 hkb]
        rfl
      simp [collectPapersFromWeb, hok, hne, hex, hkb, hq]
  · intro e2 hkb
    exact collectPapersFromKnowledgeBase_error_has429 env true kbOp kbParse e2 hkb

/-- C7 witness: a non-quota search failure followed by a successful (empty)
knowledge-base recall: exactly one fallback call, empty result. -/
theorem collectPapersFromWeb_fallback_behavior_witness :
    (collectPapersFromWeb testEnv true (fun _ => .error ⟨"network boom", none, none⟩)
      (fun _ => .notArr) (fun _ => .ok "[]") (fun _ => .ok [])).2 = 1 ∧
    (collectPapersFromWeb testEnv true (fun _ => .error ⟨"network boom", none, none⟩)
      (fun _ => .notArr) (fun _ => .ok "[]") (fun _ => .ok [])).1 = .ok [] := by
  have h := (collectPapersFromWeb_fallback_behavior testEnv
    (fun _ => .error ⟨"network boom", none, none⟩) (fun _ => .ok "[]")
    (fun _ => .notArr) (fun _ => .ok [])).1 ⟨"network boom", none, none⟩ rfl rfl
  exact ⟨h.1, h.2.1 [] rfl⟩

/-- C8 counterexample: on the Groq path, a provider failure makes
`optimizeSearchQuery` return an error string, not the input topic. -/
theorem optimizeSearchQuery_groq_failure_not_topic :
    optimizeSearchQuery ⟨.groq, some "key", none⟩ (.threw "boom") true (.ok (some "q"))
      "AI in banking" "2024-2025" = "Provider Error: boom" ∧
    "Provider Error: boom" ≠ "AI in banking" :=
  ⟨rfl, by decide⟩

/-- C8 (amended): `optimizeSearchQuery` always returns a string and never
throws; it is never wrapped in the retry wrapper (one outcome is
consulted). On the Gemini path it returns the input topic unchanged when
the client is missing, the call fails, or the response text is absent; on
the Groq path it returns the `callGroqAPI` string, which on failure is an
error message rather than the topic. -/
theorem optimizeSearchQuery_degrades (settings : LLMSettings) (g : FetchOutcome)
    (aiPresent : Bool) (gem : Except JsError (Option String)) (topic dr : String) :
    (settings.provider = .gemini → aiPresent = false →
      optimizeSearchQuery settings g aiPresent gem topic dr = topic) ∧
    (settings.provider = .gemini → ∀ e, gem = .error e →
      optimizeSearchQuery settings g aiPresent gem topic dr = topic) ∧
    (settings.provider = .gemini → gem = .ok none →
      optimizeSearchQuery settings g aiPresent gem topic dr = topic) ∧
    (settings.provider = .groq →
      optimizeSearchQuery settings g aiPresent gem topic dr = callGroqAPI settings g) := by
  refine ⟨?_, ?_, ?_, ?_⟩
  · intro h hai
    simp [optimizeSearchQuery, h, hai]
  · intro h e hg
    cases hai : aiPresent <;> simp [optimizeSearchQuery, h, hg, hai]
  · intro h hg
    cases hai : aiPresent <;> simp [optimizeSearchQuery, h, hg, hai]
  · intro h
    simp [optimizeSearchQuery, h]

/-- C8 witness: Gemini path with a failing provider call returns the topic;
Groq path with a thrown fetch returns the provider-error string. -/
theorem optimizeSearchQuery_degrades_witness :
    optimizeSearchQuery ⟨.gemini, none, none⟩ (.ok none) true
      (.error ⟨"boom", none, none⟩) "AI risk" "2024" = "AI risk" ∧
    optimizeSearchQuery ⟨.groq, some "key", none⟩ (.threw "down") false
      (.ok none) "AI risk" "2024" = callGroqAPI ⟨.groq, some "key", none⟩ (.threw "down") :=
  ⟨(optimizeSearchQuery_degrades ⟨.gemini, none, none⟩ (.ok none) true
      (.error ⟨"boom", none, none⟩) "AI risk" "2024").2.1 rfl ⟨"boom", none, none⟩ rfl,
   (optimizeSearchQuery_degrades ⟨.groq, some "key", none⟩ (.threw "down") false
      (.ok none) "AI risk" "2024").2.2.2 rfl⟩
